import Mathlib

/-!
Shallow embedding of a small video-to-audio conversion repository consisting of
two near-duplicate HTTP services:

* `api.py`  — a FastAPI service (`POST /convert`, `GET /health`, `GET /`);
* `app.py`  — a Flask service (`POST /extract-audio`).

The external media library (moviepy) is modelled as an oracle supplying the
outcomes of its three effectful operations (opening a clip, writing the audio
file, closing the clip), each of which may raise an exception (modelled as
`Except String`).  The filesystem is modelled as the list of existing paths.
-/

/-! ## Filesystem model -/

/-- The filesystem, modelled as the list of paths of existing files. -/
abbrev FS := List String

/-- `os.path.exists` -/
def fsExists (fs : FS) (p : String) : Bool := fs.any (fun q => q == p)

/-- Creating / overwriting a file at path `p`. -/
def fsWrite (fs : FS) (p : String) : FS := if fsExists fs p then fs else p :: fs

/-- `os.remove` -/
def fsRemove (fs : FS) (p : String) : FS := fs.filter (fun q => !(q == p))

/-! ## Python string primitives used by the two services -/

/-- Python `str.lower()` (ASCII case mapping; the source only compares against
ASCII literals). -/
def pyLower (s : String) : String := ⟨s.data.map Char.toLower⟩

/-- Python `filename.replace(" ", "_")` — a single-character pattern, hence a
character-wise map. -/
def pyReplaceSpaceUnderscore (s : String) : String :=
  ⟨s.data.map (fun c => if c = ' ' then '_' else c)⟩

/-- Whether `'.' in s` holds (Python substring test for a single character). -/
def hasDot (s : String) : Bool := s.data.contains '.'

/-- `s.rsplit('.', 1)[1]` when `s` contains a dot: the characters after the
last `'.'`. -/
def extOf (s : String) : String :=
  ⟨(s.data.reverse.takeWhile (fun c => c != '.')).reverse⟩

/-- `posixpath.join` restricted to two components, exactly the cases the
source exercises: if `b` is absolute it wins; otherwise a separator is
inserted unless `a` is empty or already ends with one. -/
def osJoin (a b : String) : String :=
  if b.data.head? = some '/' then b
  else if a.data = [] ∨ a.data.getLast? = some '/' then a ++ b
  else a ++ "/" ++ b

/-- `os.path.splitext` (posix): the extension is the suffix starting at the
last `'.'` of the final path component, unless every `'.'` of that component
is leading, in which case there is no extension. -/
def splitext (s : String) : String × String :=
  let l := s.data
  let b := (l.reverse.takeWhile (fun c => c != '/')).reverse
  let lead := b.takeWhile (fun c => c == '.')
  let rest := b.drop lead.length
  if rest.any (fun c => c == '.') then
    let extLen := (b.reverse.takeWhile (fun c => c != '.')).length + 1
    (⟨l.take (l.length - extLen)⟩, ⟨l.drop (l.length - extLen)⟩)
  else (s, "")

/-! ## The media-library oracle -/

/-- Outcomes of the three effectful moviepy operations used by the sources.
`openClip` returns whether the opened clip has an audio track (`clip.audio`
is not `None`), or the message of the exception `VideoFileClip` raised. -/
structure MediaOracle where
  openClip : String → Except String Bool
  writeAudio : String → String → Except String Unit
  closeClip : String → Except String Unit

/-! ## `api.py` — the FastAPI variant -/

def UPLOAD_FOLDER : String := "uploads"

def OUTPUT_FOLDER : String := "outputs"

def ALLOWED_EXTENSIONS : List String := ["mp4", "avi", "mov", "mkv", "webm"]

/-- The list literal `['mp3', 'wav', 'ogg', 'aac']` tested in the handler. -/
def OUTPUT_FORMATS : List String := ["mp3", "wav", "ogg", "aac"]

/-- `allowed_file` from `api.py`:
`'.' in filename and filename.rsplit('.', 1)[1].lower() in ALLOWED_EXTENSIONS`. -/
def allowed_file (filename : String) : Bool :=
  hasDot filename && ALLOWED_EXTENSIONS.contains (pyLower (extOf filename))

/-- Body of the `with VideoFileClip(...) as video_clip:` block of
`extract_audio_moviepy`, given that the clip opened with audio flag
`hasAudio`.  Returns the updated filesystem and either an exception, an early
`return` value (`some r`), or fall-through (`none`).  A successful
`write_audiofile` creates the target file. -/
def mvWith (fs : FS) (o : MediaOracle) (video audio : String) (hasAudio : Bool) :
    FS × Except String (Option (Bool × String)) :=
  if hasAudio = false then
    (fs, .ok (some (false, "Error: No audio track found in \x27" ++ video ++ "\x27")))
  else
    match o.writeAudio video audio with
    | .ok _ => (fsWrite fs audio, .ok none)
    | .error e => (fs, .error e)

/-- The `try:` body of `extract_audio_moviepy` (existence check, `with` block,
close on exit, final `return True`).  An exception from the block body
propagates through `__exit__`; an exception from `__exit__` replaces it. -/
def mvBody (fs : FS) (o : MediaOracle) (video audio : String) :
    FS × Except String (Bool × String) :=
  if fsExists fs video = false then
    (fs, .ok (false, "Error: Video file not found at \x27" ++ video ++ "\x27"))
  else
    match o.openClip video with
    | .error e => (fs, .error e)
    | .ok hasAudio =>
      let w := mvWith fs o video audio hasAudio
      match o.closeClip video, w.2 with
      | .error e2, _ => (w.1, .error e2)
      | .ok _, .error e => (w.1, .error e)
      | .ok _, .ok (some r) => (w.1, .ok r)
      | .ok _, .ok none => (w.1, .ok (true, "Audio extraction successful!"))

/-- `extract_audio_moviepy` with its exception flow made explicit: the
function body inside `try ... except Exception as e`, where the handler turns
any exception into a failure pair.  An `Except.error` result would mean an
exception escaped the wrapper (the safety claim proves this cannot happen). -/
def extract_audio_moviepy_exc (fs : FS) (o : MediaOracle) (video audio : String) :
    FS × Except String (Bool × String) :=
  let b := mvBody fs o video audio
  match b.2 with
  | .ok r => (b.1, .ok r)
  | .error e => (b.1, .ok (false, "An error occurred during audio extraction: " ++ e))

/-- `extract_audio_moviepy` from `api.py`, as the `(success, message)` pair it
returns.  The `.error` branch is unreachable (see the safety theorem). -/
def extract_audio_moviepy (fs : FS) (o : MediaOracle) (video audio : String) :
    FS × (Bool × String) :=
  let r := extract_audio_moviepy_exc fs o video audio
  match r.2 with
  | .ok p => (r.1, p)
  | .error e => (r.1, (false, e))

/-- Outcome of `open(video_path, "wb"); f.write(content)`: success, failure
after the file was created (write error), or failure with no file created
(open error). -/
inductive SaveOutcome where
  | ok : SaveOutcome
  | failCreated : String → SaveOutcome
  | failNoFile : String → SaveOutcome

/-- The response of the FastAPI handler: a `FileResponse` (path, suggested
download filename, media type) or an `HTTPException` (status, detail). -/
inductive ApiResponse where
  | fileResponse : String → String → String → ApiResponse
  | httpError : Nat → String → ApiResponse
deriving DecidableEq

/-- The scratch upload path built by `convert_video_to_audio`:
`os.path.join(UPLOAD_FOLDER, f"{unique_id}_{filename}")` after the space
sanitization. -/
def api_video_path (token filename : String) : String :=
  osJoin UPLOAD_FOLDER (token ++ "_" ++ pyReplaceSpaceUnderscore filename)

/-- The output path built by `convert_video_to_audio`:
`os.path.join(OUTPUT_FOLDER, f"{unique_id}_{base_filename}.{format}")`. -/
def api_audio_path (token filename format : String) : String :=
  osJoin OUTPUT_FOLDER
    (token ++ "_" ++ (splitext (pyReplaceSpaceUnderscore filename)).1 ++ "." ++ format)

/-- `convert_video_to_audio` from `api.py`.  `token` is the `uuid.uuid4()`
string drawn for this request, `save` the outcome of persisting the upload,
`filename` the declared filename (`""` for a missing one — Python's
`not file.filename` treats `None` and `""` alike) and `format` the requested
output format (the framework has already applied the default `"mp3"`). -/
def convert_video_to_audio (fs : FS) (o : MediaOracle) (save : SaveOutcome)
    (token : String) (filename : String) (format : String) : FS × ApiResponse :=
  if OUTPUT_FORMATS.contains (pyLower format) then
    if filename = "" ∨ allowed_file filename = false then
      (fs, .httpError 400
        ("Invalid file format. Allowed formats: " ++ ", ".intercalate ALLOWED_EXTENSIONS))
    else
      let base_filename := (splitext (pyReplaceSpaceUnderscore filename)).1
      let video_path := api_video_path token filename
      let audio_path := api_audio_path token filename format
      match save with
      | .failNoFile e => (fs, .httpError 500 ("Failed to save uploaded file: " ++ e))
      | .failCreated e =>
        (fsWrite fs video_path, .httpError 500 ("Failed to save uploaded file: " ++ e))
      | .ok =>
        let fs1 := fsWrite fs video_path
        let r := extract_audio_moviepy fs1 o video_path audio_path
        let fs3 := if fsExists r.1 video_path then fsRemove r.1 video_path else r.1
        if r.2.1 then
          (fs3, .fileResponse audio_path (base_filename ++ "." ++ format)
            ("audio/" ++ format))
        else
          (fs3, .httpError 500 r.2.2)
  else
    (fs, .httpError 400 ("Unsupported output format: " ++ format))

/-! ## `api.py` — GET routes and the decorator stack

The module text is

```
@app.get("/health", ...)

@app.get("/", ...)
async def welcome(): ...

async def health_check(): ...
```

Python applies the decorators bottom-up.  FastAPI's `app.get(path)` returns a
decorator that registers its argument at `path` and returns the argument
unchanged, so `welcome` is registered at `/` and then again at `/health`,
while `health_check` is never registered. -/

/-- A JSON object body, as a list of string key/value pairs. -/
abbrev JsonBody := List (String × String)

def welcome : JsonBody :=
  [("message",
    "Welcome to the Video to Audio Conversion API! Use /convert to extract audio from videos.")]

def health_check : JsonBody := [("status", "healthy")]

/-- `app.get(path)` applied to a handler: registers the route and returns the
handler, exactly the decorator protocol. -/
def appGetRegister (path : String) (routes : List (String × JsonBody))
    (handler : JsonBody) : List (String × JsonBody) × JsonBody :=
  (routes ++ [(path, handler)], handler)

/-- The GET route table produced by evaluating the module: the decorators on
`welcome` are applied bottom-up (`/` first, then `/health` to the value the
inner decorator returned); `health_check` carries no decorator of its own. -/
def registeredGetRoutes : List (String × JsonBody) :=
  let s1 := appGetRegister "/" [] welcome
  let s2 := appGetRegister "/health" s1.1 s1.2
  s2.1

/-- Dispatching a GET request: the first registered route whose path matches
serves the request with status 200. -/
def handleGet (path : String) : Option (Nat × JsonBody) :=
  (registeredGetRoutes.find? (fun r => r.1 == path)).map (fun r => (200, r.2))

/-! ## `app.py` — the Flask variant -/

def UPLOAD_DIR : String := "uploads"

def AUDIO_DIR : String := "audio_outputs"

/-- ASCII whitespace, the characters Python's `str.split()` splits on for
ASCII input (`secure_filename` has already discarded non-ASCII characters
when this runs). -/
def isPyWs (c : Char) : Bool :=
  c == ' ' || c == '\t' || c == '\n' || c == '\r' || c == '\x0b' || c == '\x0c'

/-- Python `str.split()` with no argument: split on runs of whitespace,
producing no empty parts. -/
def pySplitWsAux : List Char → List Char → List (List Char)
  | [], [] => []
  | [], acc => [acc.reverse]
  | c :: rest, acc =>
    if isPyWs c then
      if acc = [] then pySplitWsAux rest []
      else acc.reverse :: pySplitWsAux rest []
    else pySplitWsAux rest (c :: acc)

def pySplitWs (l : List Char) : List (List Char) := pySplitWsAux l []

/-- Characters kept by werkzeug's `_filename_ascii_strip_re` — it deletes
everything outside `[A-Za-z0-9_.-]`. -/
def filenameAsciiKeep (c : Char) : Bool :=
  c.isAlphanum || c == '_' || c == '.' || c == '-'

/-- Characters removed at both ends by the final `.strip("._")`. -/
def stripDotUnderscore (c : Char) : Bool := c == '.' || c == '_'

/-- Remove the maximal suffix of characters satisfying `p`
(the right half of Python's `str.strip`). -/
def stripRight (p : Char → Bool) : List Char → List Char
  | [] => []
  | a :: t =>
    let r := stripRight p t
    if r.isEmpty then (if p a then [] else [a]) else a :: r

/-- Python `str.strip(chars)`: drop characters satisfying `p` from both ends. -/
def pyStrip (p : Char → Bool) (l : List Char) : List Char :=
  stripRight p (l.dropWhile p)

/-- werkzeug's `secure_filename`, modelled for the posix platform:
`normalize("NFKD", f).encode("ascii", "ignore")` (the identity on ASCII;
non-ASCII characters without an ASCII decomposition are dropped — the model
drops all non-ASCII characters), each `os.sep` (`'/'`; `os.path.altsep` is
`None`) replaced by a space, whitespace-split and re-joined with `'_'`,
characters outside `[A-Za-z0-9_.-]` deleted, and finally `.strip("._")`. -/
def secure_filename (f : String) : String :=
  let a := f.data.filter (fun c => c.toNat ≤ 127)
  let b := a.map (fun c => if c = '/' then ' ' else c)
  let joined := List.intercalate ['_'] (pySplitWs b)
  let kept := joined.filter filenameAsciiKeep
  ⟨pyStrip stripDotUnderscore kept⟩

/-- Body of the `with` block of `extract_audio` in `app.py`: early
`return False` when the clip has no audio track, otherwise
`write_audiofile`. -/
def eaWith (fs : FS) (o : MediaOracle) (video audio : String) (hasAudio : Bool) :
    FS × Except String (Option Bool) :=
  if hasAudio = false then (fs, .ok (some false))
  else
    match o.writeAudio video audio with
    | .ok _ => (fsWrite fs audio, .ok none)
    | .error e => (fs, .error e)

/-- The `try:` body of `extract_audio`: the `with` block followed by
`return True`. -/
def eaBody (fs : FS) (o : MediaOracle) (video audio : String) :
    FS × Except String Bool :=
  match o.openClip video with
  | .error e => (fs, .error e)
  | .ok hasAudio =>
    let w := eaWith fs o video audio hasAudio
    match o.closeClip video, w.2 with
    | .error e2, _ => (w.1, .error e2)
    | .ok _, .error e => (w.1, .error e)
    | .ok _, .ok (some b) => (w.1, .ok b)
    | .ok _, .ok none => (w.1, .ok true)

/-- `extract_audio` with its exception flow explicit: the
`except Exception as e` handler prints and returns `False`. -/
def extract_audio_exc (fs : FS) (o : MediaOracle) (video audio : String) :
    FS × Except String Bool :=
  let b := eaBody fs o video audio
  match b.2 with
  | .ok r => (b.1, .ok r)
  | .error _ => (b.1, .ok false)

/-- `extract_audio` from `app.py`, as the boolean it returns. -/
def extract_audio (fs : FS) (o : MediaOracle) (video audio : String) : FS × Bool :=
  let r := extract_audio_exc fs o video audio
  match r.2 with
  | .ok b => (r.1, b)
  | .error _ => (r.1, false)

/-- The Flask handler's JSON responses: the 200 success body
`{message, audio_file}` or an error body `{error}` with its status. -/
inductive FlaskResponse where
  | jsonOk : String → String → FlaskResponse
  | jsonErr : Nat → String → FlaskResponse
deriving DecidableEq

/-- The scratch upload path built by `extract_audio_api`:
`os.path.join(UPLOAD_DIR, secure_filename(file.filename))`. -/
def flask_video_path (filename : String) : String :=
  osJoin UPLOAD_DIR (secure_filename filename)

/-- The output path built by `extract_audio_api`:
`os.path.join(AUDIO_DIR, f"{os.path.splitext(filename)[0]}.{output_format}")`. -/
def flask_audio_path (filename output_format : String) : String :=
  osJoin AUDIO_DIR ((splitext (secure_filename filename)).1 ++ "." ++ output_format)

/-- `extract_audio_api` from `app.py`.  `fileProvided` is whether `'file'` is
in `request.files`; `output_format` already carries the framework default
`"mp3"`. -/
def extract_audio_api (fs : FS) (o : MediaOracle) (fileProvided : Bool)
    (filename : String) (output_format : String) : FS × FlaskResponse :=
  if fileProvided = false then (fs, .jsonErr 400 "No file provided")
  else if filename = "" then (fs, .jsonErr 400 "No selected file")
  else
    let video_path := flask_video_path filename
    let audio_path := flask_audio_path filename output_format
    let fs1 := fsWrite fs video_path
    let r := extract_audio fs1 o video_path audio_path
    if r.2 then (r.1, .jsonOk "Audio extracted successfully" audio_path)
    else (r.1, .jsonErr 500 "Failed to extract audio")

/-! ## Concrete oracles used in witnesses and counterexamples -/

/-- An oracle on which opening the clip raises with message `msg`. -/
def oOpenFail (msg : String) : MediaOracle :=
  { openClip := fun _ => .error msg
    writeAudio := fun _ _ => .error msg
    closeClip := fun _ => .ok () }

/-- An oracle on which every operation succeeds and the clip has an audio
track. -/
def oGood : MediaOracle :=
  { openClip := fun _ => .ok true
    writeAudio := fun _ _ => .ok ()
    closeClip := fun _ => .ok () }

/-- An oracle on which the clip opens but has no audio track. -/
def oNoAudio : MediaOracle :=
  { openClip := fun _ => .ok false
    writeAudio := fun _ _ => .ok ()
    closeClip := fun _ => .ok () }

/-! ## Spec-worded comparison definitions -/

/-- Modelled from the spec's wording: the basename of a filename is the part
before the last `'.'` (the spec defines the extension as the substring after
the last `'.'`), to be compared with the code's `os.path.splitext`. -/
def specBasename (s : String) : String :=
  ⟨((s.data.reverse.dropWhile (fun c => c != '.')).drop 1).reverse⟩

/-- `p` is a direct child of directory `dir`: `dir`, a separator, and a
nonempty final component that contains no separator and is neither `"."` nor
`".."`. -/
def isDirectChildOf (p dir : String) : Prop :=
  ∃ s : String, p = dir ++ "/" ++ s ∧ s ≠ "" ∧ s.data.contains '/' = false ∧
    s ≠ "." ∧ s ≠ ".."

/-- The shape of `str(uuid.uuid4())`: 36 characters drawn from the lowercase
hex digits and `'-'`.  This is the well-formedness the per-request token is
guaranteed to have. -/
def isUuidStr (t : String) : Bool :=
  t.length == 36 &&
    t.data.all (fun c => c.isDigit || (decide ('a' ≤ c) && decide (c ≤ 'f')) || c == '-')

/-! ## Helper lemmas -/

theorem fsExists_fsRemove (fs : FS) (p : String) : fsExists (fsRemove fs p) p = false := by
  simp [fsExists, fsRemove, List.any_eq_true, List.mem_filter]

theorem fsExists_fsWrite (fs : FS) (p : String) : fsExists (fsWrite fs p) p = true := by
  unfold fsWrite
  by_cases h : fsExists fs p = true
  · rw [if_pos h]; exact h
  · rw [if_neg h]; simp [fsExists]

theorem dropWhile_head_false (p : Char → Bool) (l : List Char) (c : Char) (cs : List Char)
    (h : l.dropWhile p = c :: cs) : p c = false := by
  induction l with
  | nil => simp [List.dropWhile] at h
  | cons a t ih =>
    rw [List.dropWhile_cons] at h
    by_cases hp : p a
    · rw [if_pos hp] at h; exact ih h
    · rw [if_neg hp] at h
      injection h with h1 _
      rw [← h1]
      simpa using hp

theorem stripRight_head (p : Char → Bool) (l : List Char) (c : Char) (cs : List Char)
    (h : stripRight p l = c :: cs) : ∃ t, l = c :: t := by
  cases l with
  | nil => simp [stripRight] at h
  | cons a t =>
    rw [stripRight] at h
    by_cases he : (stripRight p t).isEmpty
    · rw [if_pos he] at h
      by_cases hp : p a
      · rw [if_pos hp] at h; cases h
      · rw [if_neg hp] at h
        injection h with h1 _
        exact ⟨t, by rw [h1]⟩
    · rw [if_neg he] at h
      injection h with h1 _
      exact ⟨t, by rw [h1]⟩

theorem stripRight_subset (p : Char → Bool) (l : List Char) (c : Char)
    (h : c ∈ stripRight p l) : c ∈ l := by
  induction l with
  | nil => simp [stripRight] at h
  | cons a t ih =>
    rw [stripRight] at h
    by_cases he : (stripRight p t).isEmpty
    · rw [if_pos he] at h
      by_cases hp : p a
      · rw [if_pos hp] at h; cases h
      · rw [if_neg hp] at h
        have hc : c = a := by simpa using h
        rw [hc]; exact List.mem_cons_self a t
    · rw [if_neg he] at h
      rcases List.mem_cons.mp h with h | h
      · rw [h]; exact List.mem_cons_self a t
      · exact List.mem_cons_of_mem a (ih h)

theorem dropWhile_mem (p : Char → Bool) (l : List Char) (c : Char)
    (h : c ∈ l.dropWhile p) : c ∈ l := by
  induction l with
  | nil => simp [List.dropWhile] at h
  | cons a t ih =>
    rw [List.dropWhile_cons] at h
    by_cases hp : p a
    · rw [if_pos hp] at h; exact List.mem_cons_of_mem a (ih h)
    · rw [if_neg hp] at h; exact h

theorem pyStrip_head_false (p : Char → Bool) (l : List Char) (c : Char) (cs : List Char)
    (h : pyStrip p l = c :: cs) : p c = false := by
  obtain ⟨t, ht⟩ := stripRight_head p _ c _ h
  exact dropWhile_head_false p l c t ht

theorem pyStrip_subset (p : Char → Bool) (l : List Char) (c : Char)
    (h : c ∈ pyStrip p l) : c ∈ l :=
  dropWhile_mem p l c (stripRight_subset p _ c h)

theorem secure_filename_chars (f : String) (c : Char)
    (hc : c ∈ (secure_filename f).data) : filenameAsciiKeep c = true := by
  unfold secure_filename at hc
  have h1 := pyStrip_subset stripDotUnderscore _ c hc
  exact (List.mem_filter.mp h1).2

/-! ## Claim theorems -/

/-- C6: a GET request to `/health` does NOT return `{"status":"healthy"}`:
the stacked decorators register the `welcome` handler at both `/` and
`/health`, and `health_check` is never registered, so `/health` serves the
welcome message with status 200.  This theorem evaluates the route table at
the failing input. -/
theorem health_route_serves_welcome :
    handleGet "/health" = some (200, welcome) ∧ welcome ≠ health_check := by
  constructor
  · rfl
  · decide

/-- C9: the extraction wrappers never propagate an exception: with the
`try`/`except` flow made explicit, the result of each wrapper is always an
`Except.ok` value — every internal exception is caught and converted into a
failure result (`(False, message)` for `extract_audio_moviepy`, `False` for
`extract_audio`). -/
theorem wrappers_never_propagate (fs : FS) (o : MediaOracle) (v a : String) :
    (∃ p, (extract_audio_moviepy_exc fs o v a).2 = Except.ok p) ∧
    (∃ b, (extract_audio_exc fs o v a).2 = Except.ok b) := by
  constructor
  · cases h : (mvBody fs o v a).2 with
    | ok r => exact ⟨r, by simp [extract_audio_moviepy_exc, h]⟩
    | error e =>
      exact ⟨(false, "An error occurred during audio extraction: " ++ e),
        by simp [extract_audio_moviepy_exc, h]⟩
  · cases h : (eaBody fs o v a).2 with
    | ok b => exact ⟨b, by simp [extract_audio_exc, h]⟩
    | error e => exact ⟨false, by simp [extract_audio_exc, h]⟩

/-- C1 counterexample: in the Flask variant the scratch upload file still
exists after the response is produced — `extract_audio_api` never removes
`video_path`.  Here extraction even succeeds and the scratch file
`uploads/clip.mp4` remains on the filesystem. -/
theorem flask_scratch_not_cleaned :
    extract_audio_api [] oGood true "clip.mp4" "mp3"
      = (["audio_outputs/clip.mp3", "uploads/clip.mp4"],
         FlaskResponse.jsonOk "Audio extracted successfully" "audio_outputs/clip.mp3")
    ∧ fsExists (extract_audio_api [] oGood true "clip.mp4" "mp3").1 "uploads/clip.mp4"
        = true := by
  constructor
  · rfl
  · rfl

/-- C2 counterexample: the Flask variant embeds no unique token — the scratch
path is a pure function of the declared filename, so resubmitting the same
file and format produces the identical scratch path (the second request finds
its scratch path already occupied by the first request's file and overwrites
it: the filesystem is unchanged). -/
theorem flask_resubmission_same_path :
    flask_video_path "clip.mp4" = "uploads/clip.mp4"
    ∧ (extract_audio_api [] (oOpenFail "boom") true "clip.mp4" "mp3").1
        = ["uploads/clip.mp4"]
    ∧ (extract_audio_api ["uploads/clip.mp4"] (oOpenFail "boom") true "clip.mp4" "mp3").1
        = ["uploads/clip.mp4"] := by
  refine ⟨rfl, rfl, rfl⟩

/-- C3 counterexample: the Flask variant performs no output-format validation:
a request with format `"xyz"` (outside `{mp3,wav,ogg,aac}`) is not answered
with a client error — the scratch file is persisted, extraction is attempted,
and the response is a 500 server error. -/
theorem flask_accepts_bad_format :
    extract_audio_api [] (oOpenFail "err") true "a.mp4" "xyz"
      = (["uploads/a.mp4"], FlaskResponse.jsonErr 500 "Failed to extract audio") := by
  rfl

/-- C4 counterexample: the Flask variant performs no input-extension
validation: a request whose declared filename is `"a.txt"` (extension outside
`{mp4,avi,mov,mkv,webm}`) is not answered with a client error — the scratch
file is persisted and the response is a 500 server error. -/
theorem flask_accepts_bad_extension :
    extract_audio_api [] (oOpenFail "err") true "a.txt" "mp3"
      = (["uploads/a.txt"], FlaskResponse.jsonErr 500 "Failed to extract audio") := by
  rfl

/-- C5 counterexample: the Flask variant's failure response carries no
underlying message: two extraction failures with different exception messages
produce the identical generic response `{"error": "Failed to extract audio"}`,
so the response cannot carry the corresponding message (and no input-not-found
distinction exists). -/
theorem flask_error_message_not_carried :
    (extract_audio_api [] (oOpenFail "boom") true "a.mp4" "mp3").2
      = FlaskResponse.jsonErr 500 "Failed to extract audio"
    ∧ (extract_audio_api [] (oOpenFail "crash") true "a.mp4" "mp3").2
      = (extract_audio_api [] (oOpenFail "boom") true "a.mp4" "mp3").2 := by
  refine ⟨rfl, rfl⟩

/-- C7 counterexample: in the FastAPI variant only the ASCII space character
is replaced: a declared filename containing a tab passes through the
sanitization unchanged and the scratch path contains the tab — whitespace
from the declared filename reaches the persisted scratch path. -/
theorem api_tab_not_replaced :
    pyReplaceSpaceUnderscore "a\tb.mp4" = "a\tb.mp4"
    ∧ api_video_path "tok" "a\tb.mp4" = "uploads/tok_a\tb.mp4"
    ∧ (api_video_path "tok" "a\tb.mp4").data.contains '\t' = true := by
  refine ⟨rfl, rfl, rfl⟩

/-- C8 counterexample: for the declared filename `".mp4"` (which passes the
extension check) the code's `os.path.splitext` keeps the whole name as the
basename, so the suggested download filename is `".mp4.mp3"`, while the
spec's reading (basename = sanitized filename without the substring after the
last `'.'`) predicts `".mp3"`. -/
theorem api_download_name_dotfile :
    (convert_video_to_audio [] oGood .ok "tok" ".mp4" "mp3").2
      = ApiResponse.fileResponse "outputs/tok_.mp4.mp3" ".mp4.mp3" "audio/mp3"
    ∧ specBasename (pyReplaceSpaceUnderscore ".mp4") ++ "." ++ "mp3" = ".mp3"
    ∧ (".mp4.mp3" : String) ≠ ".mp3" := by
  refine ⟨rfl, rfl, by decide⟩

/-- C10 counterexample: the declared filename `"..."` is non-empty (so it
passes the handler's check), but `secure_filename` reduces it to the empty
string and the scratch path becomes the upload directory itself,
`"uploads/"` — not a direct child of the upload directory. -/
theorem flask_dotname_path_is_dir :
    secure_filename "..." = "" ∧ ("..." : String) ≠ ""
    ∧ flask_video_path "..." = "uploads/"
    ∧ ¬ isDirectChildOf (flask_video_path "...") UPLOAD_DIR := by
  refine ⟨rfl, by decide, rfl, ?_⟩
  rintro ⟨s, hp, hne, -, -, -⟩
  apply hne
  have hp' : ("uploads/" : String) = "uploads" ++ "/" ++ s := hp
  have hlen := congrArg String.length hp'
  rw [String.length_append, String.length_append] at hlen
  have hz : s.length = 0 := by
    have h8 : ("uploads/" : String).length = 8 := by decide
    have h7 : ("uploads" : String).length = 7 := by decide
    have h1 : ("/" : String).length = 1 := by decide
    rw [h8, h7, h1] at hlen
    omega
  have hdata : s.data = [] := List.length_eq_zero.mp hz
  exact String.ext hdata

/-- C3 amended: in the FastAPI variant a requested format that is not (after
lowercasing) in `{mp3, wav, ogg, aac}` is rejected with a 400 client error
before any file I/O — the filesystem is returned unchanged. -/
theorem api_format_check_first (fs : FS) (o : MediaOracle) (save : SaveOutcome)
    (t f fmt : String) (h : OUTPUT_FORMATS.contains (pyLower fmt) = false) :
    convert_video_to_audio fs o save t f fmt
      = (fs, ApiResponse.httpError 400 ("Unsupported output format: " ++ fmt)) := by
  unfold convert_video_to_audio
  rw [if_neg (by rw [h]; exact Bool.false_ne_true)]

/-- C3 witness. -/
theorem api_format_check_first_witness :
    convert_video_to_audio [] oGood .ok "tok" "a.mp4" "exe"
      = ([], ApiResponse.httpError 400 ("Unsupported output format: " ++ "exe")) :=
  api_format_check_first [] oGood .ok "tok" "a.mp4" "exe" (by decide)

/-- C4 amended: in the FastAPI variant a request whose declared filename is
empty, or whose extension (substring after the last `'.'`, lowercased) is not
in `{mp4, avi, mov, mkv, webm}`, receives a 400 client error with the
filesystem unchanged; when the requested format is valid the error detail is
the invalid-file message (when the format is also invalid the earlier format
check answers first, still with a 400). -/
theorem api_invalid_filename_rejected (fs : FS) (o : MediaOracle) (save : SaveOutcome)
    (t f fmt : String) (hf : f = "" ∨ allowed_file f = false) :
    (∃ d, convert_video_to_audio fs o save t f fmt = (fs, ApiResponse.httpError 400 d))
    ∧ (OUTPUT_FORMATS.contains (pyLower fmt) = true →
        convert_video_to_audio fs o save t f fmt
          = (fs, ApiResponse.httpError 400
              ("Invalid file format. Allowed formats: "
                ++ ", ".intercalate ALLOWED_EXTENSIONS))) := by
  constructor
  · by_cases hfmt : OUTPUT_FORMATS.contains (pyLower fmt) = true
    · refine ⟨"Invalid file format. Allowed formats: "
        ++ ", ".intercalate ALLOWED_EXTENSIONS, ?_⟩
      unfold convert_video_to_audio
      rw [if_pos hfmt, if_pos hf]
    · refine ⟨"Unsupported output format: " ++ fmt, ?_⟩
      unfold convert_video_to_audio
      rw [if_neg hfmt]
  · intro hfmt
    unfold convert_video_to_audio
    rw [if_pos hfmt, if_pos hf]

/-- C4 witness. -/
theorem api_invalid_filename_rejected_witness :
    (∃ d, convert_video_to_audio [] oGood .ok "tok" "virus.exe" "mp3"
      = ([], ApiResponse.httpError 400 d))
    ∧ (OUTPUT_FORMATS.contains (pyLower "mp3") = true →
        convert_video_to_audio [] oGood .ok "tok" "virus.exe" "mp3"
          = ([], ApiResponse.httpError 400
              ("Invalid file format. Allowed formats: "
                ++ ", ".intercalate ALLOWED_EXTENSIONS))) :=
  api_invalid_filename_rejected [] oGood .ok "tok" "virus.exe" "mp3" (by decide)

/-- C7 amended: whitespace sanitization differs between the variants.  In the
FastAPI variant only the ASCII space character of the declared filename is
replaced (with `'_'`), so the sanitized name contains no space (though other
whitespace survives — see the counterexample); in the Flask variant
`secure_filename` leaves no whitespace character of any kind. -/
theorem sanitized_names_whitespace (f : String) :
    ((pyReplaceSpaceUnderscore f).data.all (fun c => c != ' ') = true)
    ∧ ((secure_filename f).data.all (fun c => !(isPyWs c)) = true) := by
  constructor
  · rw [List.all_eq_true]
    intro c hc
    unfold pyReplaceSpaceUnderscore at hc
    obtain ⟨x, -, hx⟩ := List.mem_map.mp hc
    by_cases hsp : x = ' '
    · rw [if_pos hsp] at hx; rw [← hx]; decide
    · rw [if_neg hsp] at hx
      rw [← hx]
      simpa using hsp
  · rw [List.all_eq_true]
    intro c hc
    have hk := secure_filename_chars f c hc
    by_cases hw : isPyWs c = true
    · exfalso
      unfold isPyWs at hw
      simp only [Bool.or_eq_true, beq_iff_eq] at hw
      rcases hw with ((((h | h) | h) | h) | h) | h <;> rw [h] at hk <;>
        exact absurd hk (by decide)
    · simp only [Bool.not_eq_true] at hw
      simp [hw]

/-- C1 amended: in the FastAPI variant, on every request that passes
validation and whose upload save succeeds, the scratch upload file no longer
exists after the response is produced, whether extraction succeeds or fails
(the handler removes `video_path` unconditionally after the extraction
attempt). -/
theorem api_scratch_cleanup (fs : FS) (o : MediaOracle) (t f fmt : String)
    (hfmt : OUTPUT_FORMATS.contains (pyLower fmt) = true)
    (hf : ¬ (f = "" ∨ allowed_file f = false)) :
    fsExists (convert_video_to_audio fs o .ok t f fmt).1 (api_video_path t f) = false := by
  unfold convert_video_to_audio
  rw [if_pos hfmt, if_neg hf]
  dsimp only
  simp only [apply_ite Prod.fst]
  simp only [ite_self]
  by_cases he : fsExists
      (extract_audio_moviepy (fsWrite fs (api_video_path t f)) o (api_video_path t f)
        (api_audio_path t f fmt)).1 (api_video_path t f) = true
  · rw [if_pos he]
    exact fsExists_fsRemove _ _
  · rw [if_neg he]
    simpa using he

/-- C1 witness. -/
theorem api_scratch_cleanup_witness :
    fsExists (convert_video_to_audio [] oGood .ok "tok" "v.mp4" "mp3").1
      (api_video_path "tok" "v.mp4") = false :=
  api_scratch_cleanup [] oGood "tok" "v.mp4" "mp3" (by decide) (by decide)

/-- C5 amended: in the FastAPI variant the extraction step distinguishes its
failures — nonexistent input path, absent audio track, and any other internal
exception (whose message is attached) — and the handler turns any extraction
failure into a 500 response carrying exactly the extraction message. -/
theorem api_extraction_error_taxonomy (fs : FS) (o : MediaOracle) (v a e : String)
    (t f fmt : String) :
    (fsExists fs v = false →
      extract_audio_moviepy fs o v a
        = (fs, (false, "Error: Video file not found at \x27" ++ v ++ "\x27")))
    ∧ (fsExists fs v = true → o.openClip v = .ok false → o.closeClip v = .ok () →
      extract_audio_moviepy fs o v a
        = (fs, (false, "Error: No audio track found in \x27" ++ v ++ "\x27")))
    ∧ (fsExists fs v = true → o.openClip v = .error e →
      extract_audio_moviepy fs o v a
        = (fs, (false, "An error occurred during audio extraction: " ++ e)))
    ∧ (OUTPUT_FORMATS.contains (pyLower fmt) = true →
      ¬ (f = "" ∨ allowed_file f = false) →
      (extract_audio_moviepy (fsWrite fs (api_video_path t f)) o (api_video_path t f)
        (api_audio_path t f fmt)).2.1 = false →
      (convert_video_to_audio fs o .ok t f fmt).2
        = ApiResponse.httpError 500
            (extract_audio_moviepy (fsWrite fs (api_video_path t f)) o (api_video_path t f)
              (api_audio_path t f fmt)).2.2) := by
  refine ⟨?_, ?_, ?_, ?_⟩
  · intro h
    unfold extract_audio_moviepy extract_audio_moviepy_exc mvBody
    simp [h]
  · intro h1 h2 h3
    unfold extract_audio_moviepy extract_audio_moviepy_exc mvBody mvWith
    simp [h1, h2, h3]
  · intro h1 h2
    unfold extract_audio_moviepy extract_audio_moviepy_exc mvBody
    simp [h1, h2]
  · intro h1 h2 h3
    unfold convert_video_to_audio
    rw [if_pos h1, if_neg h2]
    dsimp only
    simp [h3]

/-- C5 witness (exercising the input-not-found branch). -/
theorem api_extraction_error_taxonomy_witness :
    extract_audio_moviepy [] oGood "missing.mp4" "out.mp3"
      = ([], (false, "Error: Video file not found at \x27" ++ "missing.mp4" ++ "\x27")) :=
  (api_extraction_error_taxonomy [] oGood "missing.mp4" "out.mp3" "e" "t" "f" "mp3").1
    (by decide)

/-- C8 amended: on a successful `/convert` request the response is the
artifact file with media type exactly `audio/<format>` and suggested filename
`<basename>.<format>`, where `<format>` is the requested format as submitted
and `<basename>` is the sanitized declared filename with its extension
removed by `os.path.splitext` (a name whose only dots are leading, such as
`".mp4"`, keeps the whole name as basename). -/
theorem api_success_response (fs : FS) (o : MediaOracle) (t f fmt : String)
    (hfmt : OUTPUT_FORMATS.contains (pyLower fmt) = true)
    (hf : ¬ (f = "" ∨ allowed_file f = false))
    (hopen : o.openClip (api_video_path t f) = .ok true)
    (hwrite : o.writeAudio (api_video_path t f) (api_audio_path t f fmt) = .ok ())
    (hclose : o.closeClip (api_video_path t f) = .ok ()) :
    (convert_video_to_audio fs o .ok t f fmt).2
      = ApiResponse.fileResponse (api_audio_path t f fmt)
          ((splitext (pyReplaceSpaceUnderscore f)).1 ++ "." ++ fmt)
          ("audio/" ++ fmt) := by
  unfold convert_video_to_audio
  rw [if_pos hfmt, if_neg hf]
  dsimp only
  have hex : extract_audio_moviepy (fsWrite fs (api_video_path t f)) o
      (api_video_path t f) (api_audio_path t f fmt)
      = (fsWrite (fsWrite fs (api_video_path t f)) (api_audio_path t f fmt),
         (true, "Audio extraction successful!")) := by
    unfold extract_audio_moviepy extract_audio_moviepy_exc mvBody mvWith
    simp [fsExists_fsWrite, hopen, hwrite, hclose]
  rw [hex]
  rfl

/-- C8 witness. -/
theorem api_success_response_witness :
    (convert_video_to_audio [] oGood .ok "tok" "v.mp4" "mp3").2
      = ApiResponse.fileResponse (api_audio_path "tok" "v.mp4" "mp3")
          ((splitext (pyReplaceSpaceUnderscore "v.mp4")).1 ++ "." ++ "mp3")
          ("audio/" ++ "mp3") :=
  api_success_response [] oGood "tok" "v.mp4" "mp3" (by decide) (by decide) rfl rfl rfl

theorem isUuidStr_length (t : String) (h : isUuidStr t = true) : t.data.length = 36 := by
  unfold isUuidStr at h
  rw [Bool.and_eq_true] at h
  have h1 : t.length = 36 := by simpa using h.1
  exact h1

theorem isUuidStr_head (t : String) (h : isUuidStr t = true) :
    ∃ c cs, t.data = c :: cs ∧ c ≠ '/' := by
  have hlen := isUuidStr_length t h
  unfold isUuidStr at h
  rw [Bool.and_eq_true] at h
  have hall := h.2
  rw [List.all_eq_true] at hall
  cases ht : t.data with
  | nil => rw [ht] at hlen; simp at hlen
  | cons c cs =>
    refine ⟨c, cs, rfl, ?_⟩
    intro hc
    have hm : c ∈ t.data := by rw [ht]; exact List.mem_cons_self c cs
    have hp := hall c hm
    rw [hc] at hp
    exact absurd hp (by decide)

theorem osJoin_tok_inj (d t1 t2 x1 x2 : String)
    (hd : ¬ (d.data = [] ∨ d.data.getLast? = some '/'))
    (h1 : isUuidStr t1 = true) (h2 : isUuidStr t2 = true) (hne : t1 ≠ t2) :
    osJoin d (t1 ++ "_" ++ x1) ≠ osJoin d (t2 ++ "_" ++ x2) := by
  obtain ⟨c1, cs1, hd1, hs1⟩ := isUuidStr_head t1 h1
  obtain ⟨c2, cs2, hd2, hs2⟩ := isUuidStr_head t2 h2
  have hu : ("_" : String).data = ['_'] := rfl
  have e1 : (t1 ++ "_" ++ x1).data = c1 :: (cs1 ++ '_' :: x1.data) := by
    simp [String.data_append, hd1, hu]
  have e2 : (t2 ++ "_" ++ x2).data = c2 :: (cs2 ++ '_' :: x2.data) := by
    simp [String.data_append, hd2, hu]
  intro heq
  have hh1 : ¬ ((t1 ++ "_" ++ x1).data.head? = some '/') := by
    rw [e1]
    simp only [List.head?_cons, Option.some.injEq]
    exact hs1
  have hh2 : ¬ ((t2 ++ "_" ++ x2).data.head? = some '/') := by
    rw [e2]
    simp only [List.head?_cons, Option.some.injEq]
    exact hs2
  unfold osJoin at heq
  rw [if_neg hh1, if_neg hd, if_neg hh2, if_neg hd] at heq
  have hdata := congrArg String.data heq
  simp only [String.data_append, List.append_assoc] at hdata
  have hdata2 := List.append_cancel_left hdata
  have hdata3 := List.append_cancel_left hdata2
  have hlen : t1.data.length = t2.data.length := by
    rw [isUuidStr_length t1 h1, isUuidStr_length t2 h2]
  have hteq := (List.append_inj hdata3 hlen).1
  exact hne (String.ext hteq)

theorem secure_filename_head_not_strip (f : String) (c : Char) (cs : List Char)
    (h : (secure_filename f).data = c :: cs) : stripDotUnderscore c = false := by
  unfold secure_filename at h
  exact pyStrip_head_false _ _ _ _ h

/-- C2 amended: in the FastAPI variant a fresh `uuid.uuid4()` token is
embedded in both the scratch path and the output path, so two requests whose
tokens differ — in particular a resubmission of the same file and format —
never produce the same scratch or output path. -/
theorem api_paths_unique (t1 t2 f1 f2 fmt1 fmt2 : String)
    (h1 : isUuidStr t1 = true) (h2 : isUuidStr t2 = true) (hne : t1 ≠ t2) :
    api_video_path t1 f1 ≠ api_video_path t2 f2
    ∧ api_audio_path t1 f1 fmt1 ≠ api_audio_path t2 f2 fmt2 := by
  constructor
  · have hdd : ¬ ((UPLOAD_FOLDER.data = []) ∨ UPLOAD_FOLDER.data.getLast? = some '/') := by
      decide
    exact osJoin_tok_inj UPLOAD_FOLDER t1 t2 _ _ hdd h1 h2 hne
  · have hdd : ¬ ((OUTPUT_FOLDER.data = []) ∨ OUTPUT_FOLDER.data.getLast? = some '/') := by
      decide
    have e1 : api_audio_path t1 f1 fmt1
        = osJoin OUTPUT_FOLDER
            (t1 ++ "_" ++ ((splitext (pyReplaceSpaceUnderscore f1)).1 ++ "." ++ fmt1)) := by
      unfold api_audio_path
      congr 1
      simp [String.append_assoc]
    have e2 : api_audio_path t2 f2 fmt2
        = osJoin OUTPUT_FOLDER
            (t2 ++ "_" ++ ((splitext (pyReplaceSpaceUnderscore f2)).1 ++ "." ++ fmt2)) := by
      unfold api_audio_path
      congr 1
      simp [String.append_assoc]
    rw [e1, e2]
    exact osJoin_tok_inj OUTPUT_FOLDER t1 t2 _ _ hdd h1 h2 hne

/-- C2 witness. -/
theorem api_paths_unique_witness :
    api_video_path "00000000-0000-4000-8000-000000000000" "v.mp4"
      ≠ api_video_path "00000000-0000-4000-8000-000000000001" "v.mp4"
    ∧ api_audio_path "00000000-0000-4000-8000-000000000000" "v.mp4" "mp3"
      ≠ api_audio_path "00000000-0000-4000-8000-000000000001" "v.mp4" "mp3" :=
  api_paths_unique "00000000-0000-4000-8000-000000000000"
    "00000000-0000-4000-8000-000000000001" "v.mp4" "v.mp4" "mp3" "mp3"
    (by decide) (by decide) (by decide)

/-- C10 amended: after `secure_filename`, the Flask scratch path is the
upload directory itself when the sanitized name is empty (the subsequent save
then fails on a directory), and otherwise a direct child of the upload
directory; in no case can a declared filename produce a path outside the
upload directory. -/
theorem flask_path_confined (f : String) :
    (secure_filename f = "" → flask_video_path f = "uploads/")
    ∧ (secure_filename f ≠ "" → isDirectChildOf (flask_video_path f) UPLOAD_DIR) := by
  constructor
  · intro hs
    unfold flask_video_path
    rw [hs]
    decide
  · intro hs
    cases hdat : (secure_filename f).data with
    | nil =>
      exact absurd (String.ext (by rw [hdat])) hs
    | cons c cs =>
      have hc : c ∈ (secure_filename f).data := by
        rw [hdat]; exact List.mem_cons_self c cs
      have hkc := secure_filename_chars f c hc
      have hcslash : c ≠ '/' := by
        intro hcc; rw [hcc] at hkc; exact absurd hkc (by decide)
      have hh : ¬ ((secure_filename f).data.head? = some '/') := by
        rw [hdat]
        simp only [List.head?_cons, Option.some.injEq]
        exact hcslash
      have hdd : ¬ ((UPLOAD_DIR.data = []) ∨ UPLOAD_DIR.data.getLast? = some '/') := by
        decide
      refine ⟨secure_filename f, ?_, hs, ?_, ?_, ?_⟩
      · unfold flask_video_path osJoin
        rw [if_neg hh, if_neg hdd]
      · by_cases hcon : (secure_filename f).data.contains '/' = true
        · exfalso
          have hmem : '/' ∈ (secure_filename f).data := by simpa using hcon
          exact absurd (secure_filename_chars f '/' hmem) (by decide)
        · simpa using hcon
      · intro hdot
        have hdd1 : (secure_filename f).data = ['.'] := by rw [hdot]
        exact absurd (secure_filename_head_not_strip f '.' [] hdd1) (by decide)
      · intro hdot
        have hdd2 : (secure_filename f).data = ['.', '.'] := by rw [hdot]
        exact absurd (secure_filename_head_not_strip f '.' ['.'] hdd2) (by decide)

/-- C10 witness. -/
theorem flask_path_confined_witness :
    isDirectChildOf (flask_video_path "clip.mp4") UPLOAD_DIR :=
  (flask_path_confined "clip.mp4").2 (by decide)
